import Mathlib

/-!
Shallow embedding of the catalogue-item identity resolution and deduplication
core of the nodejsRailwayTest service.

Sources embedded:
  - src/index.js            : splitFeaturesCSV, toCanon, canonQty, sameQty,
                              uniq, and the feature-aware resolve handler.
  - src/routes/item.js      : the strictQty resolve handler, the single create
                              handler and the create-batch handler.

Conventions of the embedding: JavaScript float64 numbers are modelled as exact
fractions (an integer numerator over a natural denominator, kept unnormalized
so that all arithmetic kernel-evaluates; Frac.toRat maps them into the
rationals for stating tolerance properties); String.prototype trimming and
lower-casing are modelled over ASCII via character-level helpers; the MySQL
item table is a list of rows whose id column carries the primary-key
uniqueness constraint; the random id generator
crypto.randomBytes(6).toString(base64url) is modelled as an explicit supply of
identifiers passed as a parameter.
-/

namespace ItemCore

/-- An exact fraction: the embedding of a JS number. Kept unnormalized; the
denominators produced by the quantity parser are always positive. -/
structure Frac where
  num : Int
  den : Nat
deriving DecidableEq, Repr

/-- The rational denoted by a fraction. -/
def Frac.toRat (f : Frac) : ℚ := (f.num : ℚ) / (f.den : ℚ)

/-- The fraction denoting a natural number. -/
def Frac.ofNat (n : Nat) : Frac := ⟨n, 1⟩

/-- Exact subtraction of fractions. -/
def Frac.sub (a b : Frac) : Frac := ⟨a.num * b.den - b.num * a.den, a.den * b.den⟩

/-- Exact multiplication of fractions. -/
def Frac.mul (a b : Frac) : Frac := ⟨a.num * b.num, a.den * b.den⟩

/-- Scaling a fraction by a natural constant, as in the times-1000 unit aliases. -/
def Frac.scale (k : Nat) (a : Frac) : Frac := ⟨a.num * k, a.den⟩

/-- Math.abs. -/
def Frac.fabs (a : Frac) : Frac := ⟨|a.num|, a.den⟩

/-- Value comparison of fractions by cross multiplication. -/
def Frac.ble (a b : Frac) : Bool := decide (a.num * b.den ≤ b.num * a.den)

/-- Strict value comparison of fractions by cross multiplication. -/
def Frac.blt (a b : Frac) : Bool := decide (a.num * b.den < b.num * a.den)

/-- Math.max of two fractions. -/
def Frac.fmax (a b : Frac) : Frac := if Frac.ble a b then b else a

/-- The literal 0.5 of the pcs and pack tolerance. -/
def Frac.half : Frac := ⟨1, 2⟩

/-- The literal 1 of the absolute tolerance floor. -/
def Frac.one : Frac := ⟨1, 1⟩

/-- The literal 0.02 of the relative tolerance. -/
def Frac.pct2 : Frac := ⟨2, 100⟩

/-- JS lower-casing restricted to ASCII, as exercised by the service. -/
def lowerStr (s : String) : String := String.mk (s.toList.map Char.toLower)

/-- Drop leading and trailing whitespace from a character list. -/
def trimList (cs : List Char) : List Char :=
  ((cs.dropWhile Char.isWhitespace).reverse.dropWhile Char.isWhitespace).reverse

/-- JS String.prototype.trim over ASCII whitespace. -/
def trimStr (s : String) : String := String.mk (trimList s.toList)

/-- The replace of every whitespace run by nothing, as in replace with regex s-plus. -/
def stripWs (cs : List Char) : List Char := cs.filter (fun c => !c.isWhitespace)

/-- A character matched by the regex class a to z. -/
def isLowerAlpha (c : Char) : Bool := decide ('a' ≤ c) && decide (c ≤ 'z')

/-- Numeric value of a decimal digit character. -/
def digitVal (c : Char) : Nat := c.toNat - 48

/-- Value of a list of decimal digit characters. -/
def digitsToNat (cs : List Char) : Nat := cs.foldl (fun a c => 10 * a + digitVal c) 0

/-- Parse the regex digits, optional dot digits, letters to end, returning the
parseFloat value (exact) and the unit letters. Mirrors the match on the
pattern used by canonQty in src/index.js line 73. -/
def parseNumUnit (cs : List Char) : Option (Frac × String) :=
  if (cs.takeWhile Char.isDigit).isEmpty then none
  else
    match cs.dropWhile Char.isDigit with
    | '.' :: r2 =>
      if (r2.takeWhile Char.isDigit).isEmpty then none
      else if (r2.dropWhile Char.isDigit).isEmpty then none
      else if (r2.dropWhile Char.isDigit).all isLowerAlpha then
        some (⟨digitsToNat (cs.takeWhile Char.isDigit) * 10 ^ (r2.takeWhile Char.isDigit).length
                 + digitsToNat (r2.takeWhile Char.isDigit),
               10 ^ (r2.takeWhile Char.isDigit).length⟩,
              String.mk (r2.dropWhile Char.isDigit))
      else none
    | r =>
      if r.isEmpty then none
      else if r.all isLowerAlpha then some (Frac.ofNat (digitsToNat (cs.takeWhile Char.isDigit)), String.mk r)
      else none

/-- A canonical quantity: a value in one of the base units ml, g, pcs, pack. -/
structure Canon where
  value : Frac
  unit : String
deriving DecidableEq, Repr

/-- The alias rewriting of canonQty (src/index.js lines 79 to 82): common
plurals and aliases are rewritten to the base units with their scaling. -/
def aliasStep (v : Frac) (u : String) : Frac × String :=
  if u = "l" ∨ u = "lt" ∨ u = "liter" ∨ u = "litre" then (Frac.scale 1000 v, "ml")
  else if u = "kg" then (Frac.scale 1000 v, "g")
  else if u = "pc" ∨ u = "piece" ∨ u = "pieces" then (v, "pcs")
  else if u = "packs" then (v, "pack")
  else (v, u)

/-- The alias and base-unit-membership step of canonQty (src/index.js lines 79 to 85). -/
def canonAlias (v : Frac) (u : String) : Option Canon :=
  if (aliasStep v u).2 = "ml" ∨ (aliasStep v u).2 = "g" ∨
     (aliasStep v u).2 = "pcs" ∨ (aliasStep v u).2 = "pack" then
    some ⟨(aliasStep v u).1, (aliasStep v u).2⟩
  else none

/-- canonQty from src/index.js lines 70 to 86: trim, lower-case, strip
whitespace, match number-then-letters, apply the alias table, keep only the
four base units. -/
def canonQty (raw : String) : Option Canon :=
  if raw = "" then none
  else
    match parseNumUnit (stripWs ((trimList raw.toList).map Char.toLower)) with
    | none => none
    | some (v, u) => canonAlias v u

/-- A JS value in a quantity position: null or absent, a string, an object
carrying value and unit (value pre-serialized by String, none when null), or
any other shape such as a number or boolean. -/
inductive JsQty where
  | jnull : JsQty
  | jstr : String → JsQty
  | jobj : Option String → String → JsQty
  | jother : JsQty
deriving DecidableEq, Repr

/-- toCanon from src/index.js lines 55 to 65: strings go through canonQty,
objects with non-null value and truthy unit are re-serialized to the string
form, everything else is null. -/
def toCanon : JsQty → Option Canon
  | JsQty.jnull => none
  | JsQty.jother => none
  | JsQty.jstr s => if s = "" then none else canonQty s
  | JsQty.jobj none _ => none
  | JsQty.jobj (some v) u => if u = "" then none else canonQty (v ++ u)

/-- sameQty from src/index.js lines 90 to 102: either side failing to
canonicalize passes, differing units fail, pcs and pack use the half-unit
tolerance, ml and g use the 2 percent tolerance with a 1-unit floor. -/
def sameQty (userQ dbQ : JsQty) : Bool :=
  match toCanon userQ, toCanon dbQ with
  | none, _ => true
  | _, none => true
  | some u, some d =>
    if u.unit ≠ d.unit then false
    else if u.unit = "pcs" ∨ u.unit = "pack" then
      Frac.blt (Frac.fabs (Frac.sub u.value d.value)) Frac.half
    else
      Frac.ble (Frac.fabs (Frac.sub u.value d.value))
        (Frac.fmax Frac.one (Frac.mul Frac.pct2 (Frac.fmax u.value d.value)))

/-- The tidy helper of the create handlers (src/routes/item.js line 152 and
187): null stays null, otherwise trim, and an empty trim result becomes null. -/
def tidy : Option String → Option String
  | none => none
  | some s => if trimStr s = "" then none else some (trimStr s)

/-- A persisted row of the MySQL item table, as inserted by the create
handlers: id, name and quantity are always present, the other columns are
nullable. The id column is the primary key. -/
structure Row where
  id : String
  name : String
  brand : Option String
  quantity : String
  feature : Option String
  productColor : Option String
  picWebsite : Option String
deriving DecidableEq, Repr

/-- One element of the items array of a create-batch request body, with every
field already passed through String when present and none when absent or null. -/
structure BatchItem where
  id : Option String
  name : Option String
  brand : Option String
  quantity : Option String
  feature : Option String
  productColor : Option String
  picWebsite : Option String
deriving DecidableEq, Repr

/-- The row-building loop of the create-batch handler (src/routes/item.js
lines 189 to 203): rows whose tidied name or quantity is null are skipped,
the others receive the client id when present and a generated id otherwise.
The generator argument supplies the successive random ids; k counts how many
have been consumed. -/
def buildRows : List BatchItem → (Nat → String) → Nat → List Row
  | [], _, _ => []
  | it :: rest, gen, k =>
    match tidy it.name, tidy it.quantity with
    | some n, some q =>
      match tidy it.id with
      | some i =>
        { id := i, name := n, brand := tidy it.brand, quantity := q,
          feature := tidy it.feature, productColor := tidy it.productColor,
          picWebsite := tidy it.picWebsite } :: buildRows rest gen k
      | none =>
        { id := gen k, name := n, brand := tidy it.brand, quantity := q,
          feature := tidy it.feature, productColor := tidy it.productColor,
          picWebsite := tidy it.picWebsite } :: buildRows rest gen (k + 1)
    | _, _ => buildRows rest gen k

/-- The primary-key acceptance condition of the bulk INSERT: all inserted ids
are pairwise distinct and none collides with an id already in the table. -/
def freshIds (store rows : List Row) : Bool :=
  decide ((rows.map Row.id).Nodup) && rows.all (fun r => !(store.map Row.id).contains r.id)

/-- Outcome of a create-batch call: an error code or the list of inserted ids. -/
inductive BatchOut where
  | err : String → BatchOut
  | ok : List String → BatchOut
deriving DecidableEq, Repr

/-- The create-batch handler (src/routes/item.js lines 180 to 217): an empty
items array is items_required, a batch in which every row was skipped is
no_valid_rows, otherwise one bulk INSERT runs; a duplicate-id violation makes
the whole statement fail with server_error and nothing is inserted. -/
def createBatch (items : List BatchItem) (gen : Nat → String) (store : List Row) :
    BatchOut × List Row :=
  if items.isEmpty then (BatchOut.err "items_required", store)
  else if (buildRows items gen 0).isEmpty then (BatchOut.err "no_valid_rows", store)
  else if freshIds store (buildRows items gen 0) then
    (BatchOut.ok ((buildRows items gen 0).map Row.id), store ++ buildRows items gen 0)
  else (BatchOut.err "server_error", store)

/-- The body of a single create request (src/routes/item.js lines 139 to 175). -/
structure CreateReq where
  id : Option String
  name : Option String
  brand : Option String
  quantity : Option String
  feature : Option String
  productColor : Option String
  picWebsite : Option String
deriving DecidableEq, Repr

/-- Outcome of a single create call: an error code or the new id. -/
inductive CreateOut where
  | err : String → CreateOut
  | ok : String → CreateOut
deriving DecidableEq, Repr

/-- The single create handler (src/routes/item.js lines 139 to 175): name and
quantity are required, the id is the tidied client id or one fresh generated
id, and a duplicate-id violation answers duplicate_id without any retry. -/
def createOne (req : CreateReq) (genId : String) (store : List Row) :
    CreateOut × List Row :=
  if trimStr (req.name.getD "") = "" then (CreateOut.err "name_required", store)
  else if trimStr (req.quantity.getD "") = "" then (CreateOut.err "quantity_required", store)
  else if (store.map Row.id).contains ((tidy req.id).getD genId) then
    (CreateOut.err "duplicate_id", store)
  else
    (CreateOut.ok ((tidy req.id).getD genId),
     store ++ [{ id := (tidy req.id).getD genId,
                 name := trimStr (req.name.getD ""), brand := tidy req.brand,
                 quantity := trimStr (req.quantity.getD ""), feature := tidy req.feature,
                 productColor := tidy req.productColor, picWebsite := tidy req.picWebsite }])

/-- A candidate in a resolve response: every column coalesced to a string, as
the handlers map rows with String of the column or the empty string. -/
structure Candidate where
  id : String
  name : String
  brand : String
  quantity : String
  feature : String
  productColor : String
  picWebsite : String
deriving DecidableEq, Repr

/-- The row-to-candidate mapping of the resolve handlers. -/
def toCandidate (r : Row) : Candidate :=
  { id := r.id, name := r.name, brand := r.brand.getD "", quantity := r.quantity,
    feature := r.feature.getD "", productColor := r.productColor.getD "",
    picWebsite := r.picWebsite.getD "" }

/-- The WHERE clause of the resolve queries: LOWER of name and brand equal to
LOWER of the query values; a null brand column never matches. -/
def matchBrandName (item brand : String) (r : Row) : Bool :=
  (lowerStr r.name == lowerStr item) &&
    (match r.brand with
     | some b => lowerStr b == lowerStr brand
     | none => false)

/-- The SELECT plus row mapping of the resolve handlers. -/
def baseCandidates (item brand : String) (store : List Row) : List Candidate :=
  (store.filter (matchBrandName item brand)).map toCandidate

/-- Split a character list at commas. -/
def splitCommaAux : List Char → List Char → List String
  | [], acc => [String.mk acc.reverse]
  | c :: cs, acc =>
    if c = ',' then String.mk acc.reverse :: splitCommaAux cs []
    else splitCommaAux cs (c :: acc)

/-- JS split on a comma. -/
def splitComma (s : String) : List String := splitCommaAux s.toList []

/-- splitFeaturesCSV from src/index.js lines 46 to 51: split on commas, trim
and lower-case each token, drop the empty ones. -/
def splitFeaturesCSV (s : String) : List String :=
  ((splitComma s).map (fun x => lowerStr (trimStr x))).filter (fun x => x ≠ "")

/-- JS Set-based uniq (src/index.js line 67): first occurrences, in order.
The seen accumulator holds the values already emitted. -/
def uniqAux : List String → List String → List String
  | [], _ => []
  | x :: xs, seen => if x ∈ seen then uniqAux xs seen else x :: uniqAux xs (x :: seen)

/-- uniq from src/index.js line 67. -/
def uniqJS (l : List String) : List String := uniqAux l []

/-- The userQty coercion of the resolve handlers: an object or string quantity
is kept, anything else becomes null. -/
def userQtyOf : JsQty → Option JsQty
  | JsQty.jnull => none
  | JsQty.jother => none
  | JsQty.jstr s => some (JsQty.jstr s)
  | JsQty.jobj v u => some (JsQty.jobj v u)

/-- JS truthiness of the userQty value: null and the empty string are falsy. -/
def truthyQty : Option JsQty → Bool
  | none => false
  | some (JsQty.jstr s) => s ≠ ""
  | some _ => true

/-- The body of a strictQty resolve request (src/routes/item.js lines 6 to 63);
absent brand and item fields arrive as the empty string. -/
structure ResolveReq where
  brand : String
  item : String
  strictQty : Bool
  quantity : JsQty
deriving DecidableEq, Repr

/-- The payload of a successful resolve response. -/
structure ResolveOk where
  exactId : Option String
  suggestedFeatures : List String
  candidates : List Candidate
deriving DecidableEq, Repr

/-- Outcome of a resolve call. -/
inductive ResolveOut where
  | err : String → ResolveOut
  | ok : ResolveOk → ResolveOut
deriving DecidableEq, Repr

/-- The exactId rule shared by the resolve handlers: the id of the single
candidate when exactly one remains, otherwise null. -/
def exactIdOf : List Candidate → Option String
  | [c] => some c.id
  | _ => none

/-- Assemble a resolve payload from its final candidates and features. -/
def mkResolveOk (cands : List Candidate) (sugg : List String) : ResolveOk :=
  { exactId := exactIdOf cands, suggestedFeatures := sugg, candidates := cands }

/-- The strictQty resolve handler (src/routes/item.js lines 6 to 63): validate
brand and item, in strict mode require a truthy quantity, fetch by brand and
name, filter by sameQty when a quantity is present, else empty the candidate
set in strict mode; suggestedFeatures stays empty in this handler. -/
def resolveStrict (req : ResolveReq) (store : List Row) : ResolveOut :=
  if trimStr req.brand = "" ∨ trimStr req.item = "" then
    ResolveOut.err "brand_and_item_required"
  else if req.strictQty = true ∧ truthyQty (userQtyOf req.quantity) = false then
    ResolveOut.err "quantity_required_in_strict_mode"
  else if truthyQty (userQtyOf req.quantity) = true then
    ResolveOut.ok (mkResolveOk
      ((baseCandidates (trimStr req.item) (trimStr req.brand) store).filter
        (fun c => sameQty ((userQtyOf req.quantity).getD JsQty.jnull) (JsQty.jstr c.quantity))) [])
  else if req.strictQty = true then ResolveOut.ok (mkResolveOk [] [])
  else ResolveOut.ok (mkResolveOk (baseCandidates (trimStr req.item) (trimStr req.brand) store) [])

/-- The body of a feature-aware resolve request (src/index.js lines 227 to
292); selectedFeatures is none when the field is not an array. -/
structure ResolveFReq where
  brand : String
  item : String
  quantity : JsQty
  selectedFeatures : Option (List String)
deriving DecidableEq, Repr

/-- The normalization of selectedFeatures (src/index.js lines 240 to 242):
lower-case, trim, drop empties; a non-array field yields the empty list. -/
def selectedNorm (req : ResolveFReq) : List String :=
  ((req.selectedFeatures.getD []).map (fun s => trimStr (lowerStr s))).filter (fun s => s ≠ "")

/-- The candidate set of the feature-aware resolve handler after the quantity
filter and before any feature narrowing (src/index.js lines 252 to 265). -/
def qtyFiltered (req : ResolveFReq) (store : List Row) : List Candidate :=
  if truthyQty (userQtyOf req.quantity) = true then
    (baseCandidates (trimStr req.item) (trimStr req.brand) store).filter
      (fun c => sameQty ((userQtyOf req.quantity).getD JsQty.jnull) (JsQty.jstr c.quantity))
  else baseCandidates (trimStr req.item) (trimStr req.brand) store

/-- The union of feature tokens across a candidate set (src/index.js lines 267
to 270). -/
def unionFeatures (cands : List Candidate) : List String :=
  uniqJS (cands.flatMap (fun c => splitFeaturesCSV c.feature))

/-- The feature-aware resolve handler (src/index.js lines 227 to 292):
validate brand and item, filter by quantity when present, compute the feature
union over the filtered set, then narrow to candidates holding every selected
feature when some were selected. -/
def resolveFeatures (req : ResolveFReq) (store : List Row) : ResolveOut :=
  if trimStr req.brand = "" ∨ trimStr req.item = "" then
    ResolveOut.err "brand_and_item_required"
  else if (selectedNorm req).isEmpty then
    ResolveOut.ok (mkResolveOk (qtyFiltered req store) (unionFeatures (qtyFiltered req store)))
  else
    ResolveOut.ok (mkResolveOk
      ((qtyFiltered req store).filter
        (fun c => (selectedNorm req).all (fun sf => (splitFeaturesCSV c.feature).contains sf)))
      (unionFeatures (qtyFiltered req store)))

/-- The normalized identity key of section 4.3 of the specification: each of
name, brand, quantity, feature coalesced to the empty string when absent, then
trimmed and lower-cased. The create handlers never compute it; it is stated
here to express the deduplication claims. -/
def keyOf (name brand quantity feature : Option String) :
    String × String × String × String :=
  (lowerStr (trimStr (name.getD "")), lowerStr (trimStr (brand.getD "")),
   lowerStr (trimStr (quantity.getD "")), lowerStr (trimStr (feature.getD "")))

/-- The identity key of a stored row. -/
def rowKey (r : Row) : String × String × String × String :=
  keyOf (some r.name) r.brand (some r.quantity) r.feature

/-- The identity key of a batch input row. -/
def itemKey (it : BatchItem) : String × String × String × String :=
  keyOf it.name it.brand it.quantity it.feature

/-! Concrete stores, requests and batches used to settle the claims on
explicit inputs. -/

/-- Candidate A of the resolver uniqueness example: 500ml. -/
def exRowA : Row :=
  { id := "A", name := "Cola", brand := some "Acme", quantity := "500ml",
    feature := none, productColor := none, picWebsite := none }

/-- Candidate B of the resolver uniqueness example: 1000ml. -/
def exRowB : Row :=
  { id := "B", name := "Cola", brand := some "Acme", quantity := "1000ml",
    feature := none, productColor := none, picWebsite := none }

/-- A stored candidate whose quantity does not canonicalize. -/
def exRowNA : Row :=
  { id := "R1", name := "Cola", brand := some "Acme", quantity := "n/a",
    feature := none, productColor := none, picWebsite := none }

/-- A stored candidate with feature tokens vegan and large. -/
def exRowF1 : Row :=
  { id := "F1", name := "Wash", brand := some "Fairy", quantity := "500ml",
    feature := some "Vegan, Large", productColor := none, picWebsite := none }

/-- A stored candidate with the single feature token small. -/
def exRowF2 : Row :=
  { id := "F2", name := "Wash", brand := some "Fairy", quantity := "500ml",
    feature := some "small", productColor := none, picWebsite := none }

/-- A valid batch row: Cola, Acme, 330ml, no client id. -/
def exGood : BatchItem :=
  { id := none, name := some "Cola", brand := some "Acme", quantity := some "330ml",
    feature := none, productColor := none, picWebsite := none }

/-- The invalid batch row of the partial-validity example: empty name. -/
def exBad : BatchItem :=
  { id := none, name := some "", brand := some "Acme", quantity := none,
    feature := none, productColor := none, picWebsite := none }

/-- The row inserted for exGood under the generated id G1. -/
def exGoodRow : Row :=
  { id := "G1", name := "Cola", brand := some "Acme", quantity := "330ml",
    feature := none, productColor := none, picWebsite := none }

/-- A batch row with name and quantity but an empty brand. -/
def exNoBrand : BatchItem :=
  { id := none, name := some "Cola", brand := some "", quantity := some "330ml",
    feature := none, productColor := none, picWebsite := none }

/-- A batch row with non-empty name and brand but no quantity. -/
def exNoQty : BatchItem :=
  { id := none, name := some "Cola", brand := some "Acme", quantity := none,
    feature := none, productColor := none, picWebsite := none }

/-- A stored record whose identity key matches exDupItem up to case and space. -/
def exStored : Row :=
  { id := "A0", name := "COLA", brand := some "ACME", quantity := "330ml",
    feature := none, productColor := none, picWebsite := none }

/-- A batch row whose identity key equals the key of exStored. -/
def exDupItem : BatchItem :=
  { id := none, name := some " cola ", brand := some "acme", quantity := some "330ml",
    feature := none, productColor := none, picWebsite := none }

/-- The row inserted for exDupItem in the first call. -/
def exDupRow1 : Row :=
  { id := "G1", name := "cola", brand := some "acme", quantity := "330ml",
    feature := none, productColor := none, picWebsite := none }

/-- The row inserted for exDupItem in the second call. -/
def exDupRow2 : Row :=
  { id := "G2", name := "cola", brand := some "acme", quantity := "330ml",
    feature := none, productColor := none, picWebsite := none }

/-- A record already holding the id G0 that the generator will emit first. -/
def exOldRow : Row :=
  { id := "G0", name := "Old", brand := none, quantity := "1ml",
    feature := none, productColor := none, picWebsite := none }

/-- A generator whose first id collides with exOldRow and whose second is fresh. -/
def exCollGen : Nat → String := fun k => if k = 0 then "G0" else "FRESH"

/-- A valid batch row distinct from exOldRow. -/
def exNewItem : BatchItem :=
  { id := none, name := some "New", brand := none, quantity := some "2ml",
    feature := none, productColor := none, picWebsite := none }

/-- The row inserted for exNoBrand: the empty brand is tidied to null. -/
def exNoBrandRow : Row :=
  { id := "G1", name := "Cola", brand := none, quantity := "330ml",
    feature := none, productColor := none, picWebsite := none }

/-- The single create request matching exNewItem. -/
def exNewReq : CreateReq :=
  { id := none, name := some "New", brand := none, quantity := some "2ml",
    feature := none, productColor := none, picWebsite := none }

/-- A feature-aware resolve request selecting the vegan token. -/
def exFReq : ResolveFReq :=
  { brand := "Fairy", item := "Wash", quantity := JsQty.jnull,
    selectedFeatures := some ["Vegan "] }

/-- The payload the feature-aware handler returns for exFReq over the two
Fairy rows. -/
def exFOut : ResolveOk :=
  { exactId := some "F1", suggestedFeatures := ["vegan", "large", "small"],
    candidates := [toCandidate exRowF1] }

/-- The strict resolve request of the incomparable-candidate scenario. -/
def exStrictReq : ResolveReq :=
  { brand := "Acme", item := "Cola", strictQty := true, quantity := JsQty.jstr "500ml" }

/-! Helper lemmas: the bridge from the fraction arithmetic to the rationals,
the positivity invariant of parsed denominators, and list facts about the
handler combinators. -/

theorem Frac.toRat_ofNat (n : Nat) : (Frac.ofNat n).toRat = n := by
  simp [Frac.toRat, Frac.ofNat]

theorem Frac.toRat_sub (a b : Frac) (ha : 0 < a.den) (hb : 0 < b.den) :
    (Frac.sub a b).toRat = a.toRat - b.toRat := by
  have ha2 : ((a.den : ℚ)) ≠ 0 := by positivity
  have hb2 : ((b.den : ℚ)) ≠ 0 := by positivity
  simp only [Frac.toRat, Frac.sub]
  push_cast
  field_simp
  ring

theorem Frac.toRat_mul (a b : Frac) : (Frac.mul a b).toRat = a.toRat * b.toRat := by
  simp only [Frac.toRat, Frac.mul]
  push_cast
  rw [div_mul_div_comm]

theorem Frac.toRat_fabs (a : Frac) : (Frac.fabs a).toRat = |a.toRat| := by
  simp only [Frac.toRat, Frac.fabs]
  rw [abs_div]
  push_cast
  rw [abs_of_nonneg (by positivity : (0:ℚ) ≤ (a.den : ℚ))]

theorem Frac.ble_iff (a b : Frac) (ha : 0 < a.den) (hb : 0 < b.den) :
    Frac.ble a b = true ↔ a.toRat ≤ b.toRat := by
  have ha2 : (0:ℚ) < (a.den : ℚ) := by exact_mod_cast ha
  have hb2 : (0:ℚ) < (b.den : ℚ) := by exact_mod_cast hb
  simp only [Frac.ble, decide_eq_true_eq, Frac.toRat]
  rw [div_le_div_iff₀ ha2 hb2]
  constructor
  · intro h; exact_mod_cast h
  · intro h; exact_mod_cast h

theorem Frac.blt_iff (a b : Frac) (ha : 0 < a.den) (hb : 0 < b.den) :
    Frac.blt a b = true ↔ a.toRat < b.toRat := by
  have ha2 : (0:ℚ) < (a.den : ℚ) := by exact_mod_cast ha
  have hb2 : (0:ℚ) < (b.den : ℚ) := by exact_mod_cast hb
  simp only [Frac.blt, decide_eq_true_eq, Frac.toRat]
  rw [div_lt_div_iff₀ ha2 hb2]
  constructor
  · intro h; exact_mod_cast h
  · intro h; exact_mod_cast h

theorem Frac.toRat_fmax (a b : Frac) (ha : 0 < a.den) (hb : 0 < b.den) :
    (Frac.fmax a b).toRat = max a.toRat b.toRat := by
  unfold Frac.fmax
  by_cases h : Frac.ble a b = true
  · rw [if_pos h, max_eq_right ((Frac.ble_iff a b ha hb).mp h)]
  · have h2 : ¬ a.toRat ≤ b.toRat := fun hle => h ((Frac.ble_iff a b ha hb).mpr hle)
    rw [if_neg h, max_eq_left (le_of_not_le h2)]

theorem parseNumUnit_den_pos (cs : List Char) (v : Frac) (u : String)
    (h : parseNumUnit cs = some (v, u)) : 0 < v.den := by
  unfold parseNumUnit at h
  split at h
  · exact absurd h (by simp)
  split at h
  · split at h
    · exact absurd h (by simp)
    split at h
    · exact absurd h (by simp)
    split at h
    · simp only [Option.some.injEq, Prod.mk.injEq] at h
      obtain ⟨h1, h2⟩ := h
      subst h1
      exact pow_pos (by norm_num) _
    · exact absurd h (by simp)
  · split at h
    · exact absurd h (by simp)
    split at h
    · simp only [Option.some.injEq, Prod.mk.injEq] at h
      obtain ⟨h1, h2⟩ := h
      subst h1
      exact Nat.one_pos
    · exact absurd h (by simp)

theorem aliasStep_den (v : Frac) (u : String) : ((aliasStep v u).1).den = v.den := by
  unfold aliasStep
  split_ifs <;> rfl

theorem canonAlias_den_pos (v : Frac) (u : String) (c : Canon)
    (hv : 0 < v.den) (h : canonAlias v u = some c) : 0 < c.value.den := by
  unfold canonAlias at h
  split at h
  · simp only [Option.some.injEq] at h
    subst h
    simpa [aliasStep_den] using hv
  · exact absurd h (by simp)

theorem canonQty_den_pos (s : String) (c : Canon) (h : canonQty s = some c) :
    0 < c.value.den := by
  unfold canonQty at h
  split at h
  · exact absurd h (by simp)
  split at h
  · exact absurd h (by simp)
  next v u heq => exact canonAlias_den_pos v u c (parseNumUnit_den_pos _ v u heq) h

theorem toCanon_den_pos (q : JsQty) (c : Canon) (h : toCanon q = some c) :
    0 < c.value.den := by
  cases q with
  | jnull => exact absurd h (by simp [toCanon])
  | jother => exact absurd h (by simp [toCanon])
  | jstr s =>
    simp only [toCanon] at h
    split at h
    · exact absurd h (by simp)
    · exact canonQty_den_pos s c h
  | jobj ov u =>
    cases ov with
    | none => exact absurd h (by simp [toCanon])
    | some vstr =>
      simp only [toCanon] at h
      split at h
      · exact absurd h (by simp)
      · exact canonQty_den_pos _ c h

theorem sameQty_none_left (a b : JsQty) (h : toCanon a = none) : sameQty a b = true := by
  unfold sameQty
  rw [h]
  cases hb : toCanon b <;> rfl

theorem sameQty_none_right (a b : JsQty) (h : toCanon b = none) : sameQty a b = true := by
  unfold sameQty
  rw [h]
  cases ha : toCanon a <;> rfl

theorem uniqAux_mem (l : List String) (seen : List String) (x : String) :
    x ∈ uniqAux l seen ↔ x ∈ l ∧ x ∉ seen := by
  induction l generalizing seen with
  | nil => simp [uniqAux]
  | cons a as ih =>
    unfold uniqAux
    by_cases h : a ∈ seen
    · rw [if_pos h, ih]
      constructor
      · rintro ⟨hx, hns⟩
        exact ⟨List.mem_cons_of_mem _ hx, hns⟩
      · rintro ⟨hx, hns⟩
        rcases List.mem_cons.mp hx with rfl | hx
        · exact absurd h hns
        · exact ⟨hx, hns⟩
    · rw [if_neg h]
      constructor
      · intro hx
        rcases List.mem_cons.mp hx with rfl | hx
        · exact ⟨List.mem_cons_self _ _, h⟩
        · obtain ⟨h1, h2⟩ := (ih (a :: seen)).mp hx
          exact ⟨List.mem_cons_of_mem _ h1,
                 fun hs => h2 (List.mem_cons_of_mem _ hs)⟩
      · rintro ⟨hx, hns⟩
        rcases List.mem_cons.mp hx with rfl | hx
        · exact List.mem_cons_self _ _
        · by_cases hxa : x = a
          · subst hxa
            exact List.mem_cons_self _ _
          · exact List.mem_cons_of_mem _ ((ih (a :: seen)).mpr
              ⟨hx, fun hmem => (List.mem_cons.mp hmem).elim hxa hns⟩)

theorem uniqAux_nodup (l : List String) (seen : List String) : (uniqAux l seen).Nodup := by
  induction l generalizing seen with
  | nil => simp [uniqAux]
  | cons a as ih =>
    unfold uniqAux
    by_cases h : a ∈ seen
    · rw [if_pos h]
      exact ih seen
    · rw [if_neg h]
      refine List.nodup_cons.mpr ⟨?_, ih (a :: seen)⟩
      intro hmem
      exact ((uniqAux_mem as (a :: seen) a).mp hmem).2 (List.mem_cons_self a seen)

theorem uniqJS_mem (l : List String) (x : String) : x ∈ uniqJS l ↔ x ∈ l := by
  simp [uniqJS, uniqAux_mem]

theorem uniqJS_nodup (l : List String) : (uniqJS l).Nodup := uniqAux_nodup l []

theorem contains_iff_mem_str (l : List String) (a : String) :
    l.contains a = true ↔ a ∈ l := by
  simp [List.contains_iff_exists_mem_beq, beq_iff_eq]

theorem exactIdOf_eq_some (l : List Candidate) (i : String) :
    exactIdOf l = some i ↔ ∃ c, l = [c] ∧ c.id = i := by
  match l with
  | [] => simp [exactIdOf]
  | [c] =>
    simp only [exactIdOf, Option.some.injEq]
    constructor
    · intro h
      exact ⟨c, rfl, h⟩
    · rintro ⟨c2, hc, hid⟩
      simp only [List.cons.injEq, and_true] at hc
      rw [hc, hid]
  | a :: b :: t => simp [exactIdOf]

theorem Frac.fmax_den_pos (a b : Frac) (ha : 0 < a.den) (hb : 0 < b.den) :
    0 < (Frac.fmax a b).den := by
  unfold Frac.fmax
  split <;> assumption

theorem resolveStrict_exactId (req : ResolveReq) (store : List Row) (out : ResolveOk)
    (h : resolveStrict req store = ResolveOut.ok out) :
    out.exactId = exactIdOf out.candidates := by
  unfold resolveStrict at h
  split_ifs at h <;> cases h <;> rfl

theorem resolveFeatures_shape (req : ResolveFReq) (store : List Row) (out : ResolveOk)
    (h : resolveFeatures req store = ResolveOut.ok out) :
    out.exactId = exactIdOf out.candidates
    ∧ out.suggestedFeatures = unionFeatures (qtyFiltered req store)
    ∧ ((selectedNorm req).isEmpty = true → out.candidates = qtyFiltered req store)
    ∧ ((selectedNorm req).isEmpty = false →
        out.candidates = (qtyFiltered req store).filter
          (fun c => (selectedNorm req).all (fun sf => (splitFeaturesCSV c.feature).contains sf))) := by
  by_cases hv : trimStr req.brand = "" ∨ trimStr req.item = ""
  · rw [resolveFeatures, if_pos hv] at h
    cases h
  · by_cases hs : (selectedNorm req).isEmpty = true
    · rw [resolveFeatures, if_neg hv, if_pos hs] at h
      cases h
      exact ⟨rfl, rfl, fun _ => rfl, fun hc => by simp [hs] at hc⟩
    · rw [resolveFeatures, if_neg hv, if_neg hs] at h
      cases h
      exact ⟨rfl, rfl, fun hc => absurd hc hs, fun _ => rfl⟩

theorem createBatch_ok_inv (items : List BatchItem) (gen : Nat → String) (store : List Row)
    (ids : List String) (st2 : List Row)
    (h : createBatch items gen store = (BatchOut.ok ids, st2)) :
    st2 = store ++ buildRows items gen 0 ∧ ids = (buildRows items gen 0).map Row.id := by
  unfold createBatch at h
  split_ifs at h <;> simp only [Prod.mk.injEq] at h
  · exact absurd h.1 (by simp)
  · exact absurd h.1 (by simp)
  · obtain ⟨h1, h2⟩ := h
    simp only [BatchOut.ok.injEq] at h1
    exact ⟨h2.symm, h1.symm⟩
  · exact absurd h.1 (by simp)

theorem createBatch_err_store (items : List BatchItem) (gen : Nat → String) (store : List Row)
    (c : String) (st2 : List Row)
    (h : createBatch items gen store = (BatchOut.err c, st2)) : st2 = store := by
  unfold createBatch at h
  split_ifs at h <;> simp only [Prod.mk.injEq] at h
  · exact h.2.symm
  · exact h.2.symm
  · exact absurd h.1 (by simp)
  · exact h.2.symm

theorem buildRows_skip (it : BatchItem) (rest : List BatchItem) (gen : Nat → String) (k : Nat)
    (hinv : tidy it.name = none ∨ tidy it.quantity = none) :
    buildRows (it :: rest) gen k = buildRows rest gen k := by
  rcases hinv with h | h
  · cases hq : tidy it.quantity <;> simp only [buildRows, h, hq]
  · cases hn : tidy it.name <;> simp only [buildRows, h, hn]

theorem createBatch_skip (it : BatchItem) (rest : List BatchItem) (gen : Nat → String)
    (store : List Row) (hinv : tidy it.name = none ∨ tidy it.quantity = none)
    (hne : rest ≠ []) :
    createBatch (it :: rest) gen store = createBatch rest gen store := by
  have hb := buildRows_skip it rest gen 0 hinv
  simp only [createBatch, hb, List.isEmpty_cons, List.isEmpty_eq_false.mpr hne,
    Bool.false_eq_true, if_false]

theorem buildRows_all_invalid (items : List BatchItem) (gen : Nat → String) (k : Nat)
    (h : ∀ it ∈ items, tidy it.name = none ∨ tidy it.quantity = none) :
    buildRows items gen k = [] := by
  induction items generalizing k with
  | nil => rfl
  | cons it rest ih =>
    rw [buildRows_skip it rest gen k (h it (List.mem_cons_self it rest))]
    exact ih k (fun x hx => h x (List.mem_cons_of_mem _ hx))

theorem buildRows_length (items : List BatchItem) (gen : Nat → String) (k : Nat) :
    (buildRows items gen k).length
      = (items.filter (fun it => (tidy it.name).isSome && (tidy it.quantity).isSome)).length := by
  induction items generalizing k with
  | nil => rfl
  | cons it rest ih =>
    cases hn : tidy it.name with
    | none => simp [buildRows, List.filter_cons, hn, ih]
    | some n =>
      cases hq : tidy it.quantity with
      | none => simp [buildRows, List.filter_cons, hn, hq, ih]
      | some q =>
        cases hid : tidy it.id <;> simp [buildRows, List.filter_cons, hn, hq, hid, ih]

theorem createOne_dup (req : CreateReq) (genId : String) (store : List Row)
    (hn : trimStr (req.name.getD "") ≠ "") (hq : trimStr (req.quantity.getD "") ≠ "")
    (hc : ((tidy req.id).getD genId) ∈ store.map Row.id) :
    createOne req genId store = (CreateOut.err "duplicate_id", store) := by
  unfold createOne
  rw [if_neg hn, if_neg hq,
    if_pos ((contains_iff_mem_str (store.map Row.id) ((tidy req.id).getD genId)).mpr hc)]

/-! Claim theorems. -/

/-- Claim C5: unknown quantity passes the filter. For all inputs, if either
side fails to canonicalize, sameQty returns true; in particular a null
quantity and a non-parsing string both pass against 500ml. -/
theorem sameQty_unknown_passes :
    (∀ a b : JsQty, toCanon a = none ∨ toCanon b = none → sameQty a b = true)
    ∧ sameQty JsQty.jnull (JsQty.jstr "500ml") = true
    ∧ sameQty (JsQty.jstr "not-a-quantity") (JsQty.jstr "500ml") = true := by
  refine ⟨fun a b h => ?_, by decide, by decide⟩
  rcases h with h | h
  · exact sameQty_none_left a b h
  · exact sameQty_none_right a b h

/-- Witness for C5: the universal part applied to an object quantity with a
null value against 500ml. -/
theorem sameQty_unknown_passes_w :
    sameQty (JsQty.jobj none "ml") (JsQty.jstr "500ml") = true :=
  sameQty_unknown_passes.1 (JsQty.jobj none "ml") (JsQty.jstr "500ml") (Or.inl (by decide))

/-- Claim C10: reflexivity of quantity equivalence. For every input, either it
fails to canonicalize and the permissive default applies, or the difference
zero lies within every tolerance; sameQty of a value with itself is true. -/
theorem sameQty_reflexive (a : JsQty) : sameQty a a = true := by
  cases h : toCanon a with
  | none => exact sameQty_none_left a a h
  | some u =>
    have hd : 0 < u.value.den := toCanon_den_pos a u h
    simp only [sameQty, h]
    rw [if_neg (by simp)]
    by_cases hu : u.unit = "pcs" ∨ u.unit = "pack"
    · rw [if_pos hu]
      rw [Frac.blt_iff _ _ (Nat.mul_pos hd hd) (by decide)]
      rw [Frac.toRat_fabs, Frac.toRat_sub _ _ hd hd]
      norm_num [Frac.half, Frac.toRat]
    · rw [if_neg hu]
      have hm : 0 < (Frac.mul Frac.pct2 (Frac.fmax u.value u.value)).den := by
        have := Frac.fmax_den_pos u.value u.value hd hd
        simp only [Frac.mul, Frac.pct2]
        omega
      rw [Frac.ble_iff _ _ (Nat.mul_pos hd hd) (Frac.fmax_den_pos _ _ (by decide) hm)]
      rw [Frac.toRat_fabs, Frac.toRat_sub _ _ hd hd]
      rw [Frac.toRat_fmax _ _ (by decide) hm]
      have h1 : (Frac.one).toRat = 1 := by norm_num [Frac.one, Frac.toRat]
      rw [h1]
      simp only [sub_self, abs_zero]
      exact le_trans zero_le_one (le_max_left _ _)

/-- Claim C6: tolerance algebra when both sides canonicalize. Differing units
answer false; pcs and pack compare with the strict half-unit tolerance; ml and
g compare with the two percent tolerance floored at one unit; 100ml matches
102ml, 100ml does not match 104ml, 6pcs does not match 7pcs. -/
theorem sameQty_tolerance :
    (∀ (a b : JsQty) (u d : Canon), toCanon a = some u → toCanon b = some d →
      ((u.unit ≠ d.unit → sameQty a b = false)
       ∧ (u.unit = d.unit → (u.unit = "pcs" ∨ u.unit = "pack") →
           (sameQty a b = true ↔ |u.value.toRat - d.value.toRat| < 1 / 2))
       ∧ (u.unit = d.unit → (u.unit = "ml" ∨ u.unit = "g") →
           (sameQty a b = true ↔
             |u.value.toRat - d.value.toRat|
               ≤ max 1 (2 / 100 * max u.value.toRat d.value.toRat)))))
    ∧ sameQty (JsQty.jstr "100ml") (JsQty.jstr "102ml") = true
    ∧ sameQty (JsQty.jstr "100ml") (JsQty.jstr "104ml") = false
    ∧ sameQty (JsQty.jstr "6pcs") (JsQty.jstr "7pcs") = false := by
  refine ⟨?_, by decide, by decide, by decide⟩
  intro a b u d hu hd
  have hdu : 0 < u.value.den := toCanon_den_pos a u hu
  have hdd : 0 < d.value.den := toCanon_den_pos b d hd
  simp only [sameQty, hu, hd]
  refine ⟨fun hne => by rw [if_pos hne], fun heq hpp => ?_, fun heq hml => ?_⟩
  · rw [if_neg (by simp [heq]), if_pos hpp]
    rw [Frac.blt_iff _ _ (Nat.mul_pos hdu hdd) (by decide)]
    rw [Frac.toRat_fabs, Frac.toRat_sub _ _ hdu hdd]
    norm_num [Frac.half, Frac.toRat]
  · have hnp : ¬ (u.unit = "pcs" ∨ u.unit = "pack") := by
      rcases hml with h | h <;> simp [h]
    rw [if_neg (by simp [heq]), if_neg hnp]
    have hfm : 0 < (Frac.fmax u.value d.value).den := Frac.fmax_den_pos _ _ hdu hdd
    have hm : 0 < (Frac.mul Frac.pct2 (Frac.fmax u.value d.value)).den := by
      simp only [Frac.mul, Frac.pct2]
      omega
    rw [Frac.ble_iff _ _ (Nat.mul_pos hdu hdd) (Frac.fmax_den_pos _ _ (by decide) hm)]
    rw [Frac.toRat_fabs, Frac.toRat_sub _ _ hdu hdd]
    rw [Frac.toRat_fmax _ _ (by decide) hm, Frac.toRat_mul]
    rw [Frac.toRat_fmax _ _ hdu hdd]
    have h1 : (Frac.one).toRat = 1 := by norm_num [Frac.one, Frac.toRat]
    have h2 : (Frac.pct2).toRat = 2 / 100 := by norm_num [Frac.pct2, Frac.toRat]
    rw [h1, h2]

/-- Witness for C6: the cross-unit part applied to 500ml against 500g. -/
theorem sameQty_tolerance_w : sameQty (JsQty.jstr "500ml") (JsQty.jstr "500g") = false :=
  (sameQty_tolerance.1 (JsQty.jstr "500ml") (JsQty.jstr "500g")
    ⟨Frac.ofNat 500, "ml"⟩ ⟨Frac.ofNat 500, "g"⟩ (by decide) (by decide)).1 (by decide)

/-- Claim C9: unit alias round trip. The three concrete round trips of the
specification hold, and every alias of the table rewrites to the same
canonical pair as its base-unit spelling at every parsed value. -/
theorem canon_alias_round_trip :
    canonQty "1l" = canonQty "1000ml"
    ∧ canonQty "1kg" = canonQty "1000g"
    ∧ canonQty "2pieces" = canonQty "2pcs"
    ∧ (∀ v : Frac,
        canonAlias v "l" = canonAlias (Frac.scale 1000 v) "ml"
        ∧ canonAlias v "lt" = canonAlias (Frac.scale 1000 v) "ml"
        ∧ canonAlias v "liter" = canonAlias (Frac.scale 1000 v) "ml"
        ∧ canonAlias v "litre" = canonAlias (Frac.scale 1000 v) "ml"
        ∧ canonAlias v "kg" = canonAlias (Frac.scale 1000 v) "g"
        ∧ canonAlias v "pc" = canonAlias v "pcs"
        ∧ canonAlias v "piece" = canonAlias v "pcs"
        ∧ canonAlias v "pieces" = canonAlias v "pcs"
        ∧ canonAlias v "packs" = canonAlias v "pack") := by
  refine ⟨by decide, by decide, by decide, fun v => ?_⟩
  refine ⟨?_, ?_, ?_, ?_, ?_, ?_, ?_, ?_, ?_⟩ <;> rfl

/-- Claim C4 as amended: with strictQty and no usable quantity the handler
answers quantity_required_in_strict_mode; but when a quantity is supplied, a
candidate whose stored quantity fails to canonicalize still passes the filter
and stays in the result, because the permissive sameQty default applies even
in strict mode and the strict empty-result branch is unreachable then. -/
theorem resolveStrict_strict_mode :
    (∀ (req : ResolveReq) (store : List Row), req.strictQty = true →
       truthyQty (userQtyOf req.quantity) = false →
       ¬(trimStr req.brand = "" ∨ trimStr req.item = "") →
       resolveStrict req store = ResolveOut.err "quantity_required_in_strict_mode")
    ∧ (∀ (req : ResolveReq) (store : List Row) (out : ResolveOk),
        resolveStrict req store = ResolveOut.ok out →
        truthyQty (userQtyOf req.quantity) = true →
        ∀ c ∈ baseCandidates (trimStr req.item) (trimStr req.brand) store,
          toCanon (JsQty.jstr c.quantity) = none → c ∈ out.candidates) := by
  constructor
  · intro req store hstrict hfalse hv
    rw [resolveStrict, if_neg hv, if_pos ⟨hstrict, hfalse⟩]
  · intro req store out h htruthy c hmem hnone
    by_cases hv : trimStr req.brand = "" ∨ trimStr req.item = ""
    · rw [resolveStrict, if_pos hv] at h
      cases h
    · rw [resolveStrict, if_neg hv,
        if_neg (fun hand => by rw [htruthy] at hand; exact absurd hand.2 (by simp)),
        if_pos htruthy] at h
      cases h
      exact List.mem_filter.mpr ⟨hmem, sameQty_none_right _ _ hnone⟩

/-- Witness for C4: the missing-quantity error on a concrete strict request,
and the amended pass-through on the incomparable stored candidate. -/
theorem resolveStrict_strict_mode_w :
    resolveStrict { brand := "Acme", item := "Cola", strictQty := true,
                    quantity := JsQty.jnull } []
      = ResolveOut.err "quantity_required_in_strict_mode"
    ∧ toCandidate exRowNA ∈
        (ResolveOk.mk (some "R1") [] [toCandidate exRowNA]).candidates :=
  ⟨resolveStrict_strict_mode.1 _ [] (by decide) (by decide) (by decide),
   resolveStrict_strict_mode.2 exStrictReq [exRowNA]
     (ResolveOk.mk (some "R1") [] [toCandidate exRowNA]) (by decide) (by decide)
     (toCandidate exRowNA) (by decide) (by decide)⟩

/-- Counterexample to C4 as stated: the quantity 500ml is supplied under
strictQty, the only candidate has the non-canonicalizing quantity n/a, and the
handler answers with that candidate and its id as exactId instead of an empty
candidate list and a null exactId. -/
theorem C4_counterexample :
    toCanon (JsQty.jstr "n/a") = none
    ∧ resolveStrict exStrictReq [exRowNA]
        = ResolveOut.ok (ResolveOk.mk (some "R1") [] [toCandidate exRowNA]) := by
  decide

/-- Claim C7: the suggested features of the feature-aware handler are the
deduplicated union of the feature tokens over the candidates remaining after
the quantity filter and before narrowing, and with a non-empty selected set
the final candidates are exactly those whose token set contains every
selected token. -/
theorem resolveFeatures_features_spec (req : ResolveFReq) (store : List Row) (out : ResolveOk)
    (h : resolveFeatures req store = ResolveOut.ok out) :
    out.suggestedFeatures.Nodup
    ∧ (∀ s, s ∈ out.suggestedFeatures ↔ ∃ c ∈ qtyFiltered req store, s ∈ splitFeaturesCSV c.feature)
    ∧ (selectedNorm req ≠ [] →
        ∀ c, c ∈ out.candidates ↔
          (c ∈ qtyFiltered req store ∧ ∀ sf ∈ selectedNorm req, sf ∈ splitFeaturesCSV c.feature)) := by
  obtain ⟨hex, hsugg, hempty, hfull⟩ := resolveFeatures_shape req store out h
  refine ⟨?_, ?_, ?_⟩
  · rw [hsugg]
    exact uniqJS_nodup _
  · intro s
    rw [hsugg]
    unfold unionFeatures
    rw [uniqJS_mem, List.mem_flatMap]
  · intro hne c
    rw [hfull (List.isEmpty_eq_false.mpr hne), List.mem_filter]
    constructor
    · rintro ⟨h1, h2⟩
      exact ⟨h1, fun sf hsf =>
        (contains_iff_mem_str _ _).mp ((List.all_eq_true.mp h2) sf hsf)⟩
    · rintro ⟨h1, h2⟩
      exact ⟨h1, List.all_eq_true.mpr fun sf hsf =>
        (contains_iff_mem_str _ _).mpr (h2 sf hsf)⟩

/-- Witness for C7: the concrete Fairy store with the vegan selection. -/
theorem resolveFeatures_features_spec_w :
    exFOut.suggestedFeatures.Nodup
    ∧ (toCandidate exRowF1 ∈ exFOut.candidates ↔
        (toCandidate exRowF1 ∈ qtyFiltered exFReq [exRowF1, exRowF2]
         ∧ ∀ sf ∈ selectedNorm exFReq, sf ∈ splitFeaturesCSV (toCandidate exRowF1).feature)) :=
  ⟨(resolveFeatures_features_spec exFReq [exRowF1, exRowF2] exFOut (by decide)).1,
   (resolveFeatures_features_spec exFReq [exRowF1, exRowF2] exFOut (by decide)).2.2
     (by decide) (toCandidate exRowF1)⟩

/-- Claim C8: exactId is non-null iff exactly one candidate remains after all
filtering, in which case it is the id of that candidate; the concrete 500ml
and 1000ml store answers A with quantity 500ml and null without a quantity. -/
theorem resolver_exactId_unique :
    (∀ (req : ResolveReq) (store : List Row) (out : ResolveOk),
       resolveStrict req store = ResolveOut.ok out →
       ∀ i, (out.exactId = some i ↔ ∃ c, out.candidates = [c] ∧ c.id = i))
    ∧ (∀ (req : ResolveFReq) (store : List Row) (out : ResolveOk),
       resolveFeatures req store = ResolveOut.ok out →
       ∀ i, (out.exactId = some i ↔ ∃ c, out.candidates = [c] ∧ c.id = i))
    ∧ resolveStrict { brand := "Acme", item := "Cola", strictQty := false,
                      quantity := JsQty.jstr "500ml" } [exRowA, exRowB]
        = ResolveOut.ok (ResolveOk.mk (some "A") [] [toCandidate exRowA])
    ∧ resolveStrict { brand := "Acme", item := "Cola", strictQty := false,
                      quantity := JsQty.jnull } [exRowA, exRowB]
        = ResolveOut.ok (ResolveOk.mk none [] [toCandidate exRowA, toCandidate exRowB]) := by
  refine ⟨?_, ?_, by decide, by decide⟩
  · intro req store out h i
    rw [resolveStrict_exactId req store out h]
    exact exactIdOf_eq_some out.candidates i
  · intro req store out h i
    rw [(resolveFeatures_shape req store out h).1]
    exact exactIdOf_eq_some out.candidates i

/-- Witness for C8: the uniqueness direction applied to the singleton result. -/
theorem resolver_exactId_unique_w :
    (ResolveOk.mk (some "A") [] [toCandidate exRowA]).exactId = some "A" :=
  ((resolver_exactId_unique.1
      { brand := "Acme", item := "Cola", strictQty := false, quantity := JsQty.jstr "500ml" }
      [exRowA, exRowB] (ResolveOk.mk (some "A") [] [toCandidate exRowA]) (by decide)) "A").mpr
    ⟨toCandidate exRowA, rfl, rfl⟩

/-- Claim C1 as amended: batch create is insert-only and performs no
identity-key deduplication. On success the table is extended by exactly the
rows built from the inputs and the id generator, independent of the existing
catalogue; a row whose identity key equals a stored record is inserted again
under a new id, and two successive submissions of the same row insert two
records with distinct ids and no existed flag. -/
theorem createBatch_insert_only :
    (∀ (items : List BatchItem) (gen : Nat → String) (store store2 : List Row)
       (ids : List String),
       createBatch items gen store = (BatchOut.ok ids, store2) →
       store2 = store ++ buildRows items gen 0 ∧ ids = (buildRows items gen 0).map Row.id)
    ∧ rowKey exStored = itemKey exDupItem
    ∧ createBatch [exDupItem] (fun _ => "G1") [exStored]
        = (BatchOut.ok ["G1"], [exStored, exDupRow1])
    ∧ createBatch [exDupItem] (fun _ => "G2") [exStored, exDupRow1]
        = (BatchOut.ok ["G2"], [exStored, exDupRow1, exDupRow2]) := by
  refine ⟨?_, by decide, by decide, by decide⟩
  intro items gen store store2 ids h
  exact createBatch_ok_inv items gen store ids store2 h

/-- Witness for C1: the universal part applied to the concrete duplicate-key
insertion. -/
theorem createBatch_insert_only_w :
    [exStored, exDupRow1] = [exStored] ++ buildRows [exDupItem] (fun _ => "G1") 0
    ∧ ["G1"] = (buildRows [exDupItem] (fun _ => "G1") 0).map Row.id :=
  createBatch_insert_only.1 [exDupItem] (fun _ => "G1") [exStored] [exStored, exDupRow1]
    ["G1"] (by decide)

/-- Counterexample to C1 as stated: the batch row and the stored record share
one normalized identity key, yet the call inserts a second record and answers
a fresh id rather than the existing one, and a repeated submission inserts a
third record under yet another id instead of reporting existed. -/
theorem C1_counterexample :
    rowKey exStored = itemKey exDupItem
    ∧ createBatch [exDupItem] (fun _ => "G1") [exStored]
        = (BatchOut.ok ["G1"], [exStored, exDupRow1])
    ∧ createBatch [exDupItem] (fun _ => "G2") [exStored, exDupRow1]
        = (BatchOut.ok ["G2"], [exStored, exDupRow1, exDupRow2])
    ∧ exDupRow1.id ≠ exStored.id ∧ exDupRow2.id ≠ exDupRow1.id := by
  decide

/-- Claim C2 as amended: the batch answers a single list of inserted ids, one
per row whose trimmed name and quantity are both non-empty, in input order;
a row failing that validation is skipped silently, produces no per-row result
and no error entry, and does not block the other rows; brand is not
validated; a non-empty batch in which every row is skipped fails whole with
no_valid_rows, and an empty items array fails with items_required. -/
theorem createBatch_row_validation :
    (∀ (it : BatchItem) (rest : List BatchItem) (gen : Nat → String) (store : List Row),
       (tidy it.name = none ∨ tidy it.quantity = none) → rest ≠ [] →
       createBatch (it :: rest) gen store = createBatch rest gen store)
    ∧ (∀ (items : List BatchItem) (gen : Nat → String) (store store2 : List Row)
         (ids : List String),
         createBatch items gen store = (BatchOut.ok ids, store2) →
         ids.length = (items.filter
           (fun it => (tidy it.name).isSome && (tidy it.quantity).isSome)).length)
    ∧ (∀ (gen : Nat → String) (store : List Row),
         createBatch [] gen store = (BatchOut.err "items_required", store))
    ∧ (∀ (items : List BatchItem) (gen : Nat → String) (store : List Row),
         items ≠ [] →
         (∀ it ∈ items, tidy it.name = none ∨ tidy it.quantity = none) →
         createBatch items gen store = (BatchOut.err "no_valid_rows", store)) := by
  refine ⟨createBatch_skip, ?_, fun gen store => rfl, ?_⟩
  · intro items gen store store2 ids h
    rw [(createBatch_ok_inv items gen store ids store2 h).2, List.length_map]
    exact buildRows_length items gen 0
  · intro items gen store hne hall
    rw [createBatch, if_neg (by simp [hne]), buildRows_all_invalid items gen 0 hall]
    rfl

/-- Witness for C2: the spec example batch with the empty-name row. -/
theorem createBatch_row_validation_w :
    createBatch [exBad, exGood] (fun _ => "G1") [] = createBatch [exGood] (fun _ => "G1") []
    ∧ (["G1"] : List String).length
        = ([exBad, exGood].filter
            (fun it => (tidy it.name).isSome && (tidy it.quantity).isSome)).length
    ∧ createBatch [exNoQty] (fun _ => "G1") [] = (BatchOut.err "no_valid_rows", []) :=
  ⟨createBatch_row_validation.1 exBad [exGood] (fun _ => "G1") [] (Or.inl (by decide))
     (by decide),
   createBatch_row_validation.2.1 [exBad, exGood] (fun _ => "G1") [] [exGoodRow] ["G1"]
     (by decide),
   createBatch_row_validation.2.2.2 [exNoQty] (fun _ => "G1") [] (by decide)
     (by decide)⟩

/-- Counterexample to C2 as stated: the spec example batch yields one id and
no per-row error entry instead of two results; a row with an empty brand is
inserted rather than rejected with name_and_brand_required; and a row with
non-empty name and brand but no quantity makes the whole call fail with
no_valid_rows instead of being processed. -/
theorem C2_counterexample :
    createBatch [exBad, exGood] (fun _ => "G1") [] = (BatchOut.ok ["G1"], [exGoodRow])
    ∧ (["G1"] : List String).length ≠ ([exBad, exGood] : List BatchItem).length
    ∧ createBatch [exNoBrand] (fun _ => "G1") [] = (BatchOut.ok ["G1"], [exNoBrandRow])
    ∧ createBatch [exNoQty] (fun _ => "G1") [] = (BatchOut.err "no_valid_rows", []) := by
  decide

/-- Claim C3 as amended: there is no id-collision retry. Each row receives one
generated or client id; a duplicate-id violation makes the single create fail
with duplicate_id and the batch fail with server_error; on every batch error
the table is unchanged, so the all-or-nothing part of the claim holds while
the three-attempt retry does not exist. -/
theorem create_no_id_retry :
    (∀ (items : List BatchItem) (gen : Nat → String) (store store2 : List Row) (c : String),
       createBatch items gen store = (BatchOut.err c, store2) → store2 = store)
    ∧ (∀ (items : List BatchItem) (gen : Nat → String) (store : List Row),
         items ≠ [] → buildRows items gen 0 ≠ [] →
         freshIds store (buildRows items gen 0) = false →
         createBatch items gen store = (BatchOut.err "server_error", store))
    ∧ (∀ (req : CreateReq) (genId : String) (store : List Row),
         trimStr (req.name.getD "") ≠ "" → trimStr (req.quantity.getD "") ≠ "" →
         ((tidy req.id).getD genId) ∈ store.map Row.id →
         createOne req genId store = (CreateOut.err "duplicate_id", store)) := by
  refine ⟨?_, ?_, createOne_dup⟩
  · intro items gen store store2 c h
    exact createBatch_err_store items gen store c store2 h
  · intro items gen store hne hrows hfresh
    rw [createBatch, if_neg (by simp [hne]), if_neg (by simp [hrows]), if_neg (by simp [hfresh])]

/-- Witness for C3: the colliding generator on the concrete store. -/
theorem create_no_id_retry_w :
    [exOldRow] = ([exOldRow] : List Row)
    ∧ createBatch [exNewItem] exCollGen [exOldRow] = (BatchOut.err "server_error", [exOldRow])
    ∧ createOne exNewReq "G0" [exOldRow] = (CreateOut.err "duplicate_id", [exOldRow]) :=
  ⟨create_no_id_retry.1 [exNewItem] exCollGen [exOldRow] [exOldRow] "server_error" (by decide),
   create_no_id_retry.2.1 [exNewItem] exCollGen [exOldRow] (by decide) (by decide) (by decide),
   create_no_id_retry.2.2 exNewReq "G0" [exOldRow] (by decide) (by decide) (by decide)⟩

/-- Counterexample to C3 as stated: the first generated id collides, the
generator would have supplied the fresh id FRESH on a second attempt, yet the
batch fails with server_error without any retry, and the single create fails
with duplicate_id on its only attempt. -/
theorem C3_counterexample :
    createBatch [exNewItem] exCollGen [exOldRow] = (BatchOut.err "server_error", [exOldRow])
    ∧ exCollGen 1 = "FRESH"
    ∧ ("FRESH" ∉ ([exOldRow].map Row.id))
    ∧ createOne exNewReq "G0" [exOldRow] = (CreateOut.err "duplicate_id", [exOldRow]) := by
  decide

end ItemCore
